import Mathlib

/-!
Shallow embedding of the UsageBar provider-orchestration layer:
usage normalization (factory.ts, zai.ts, claude.ts), the retry wrapper
(retry.ts), the circuit breaker (circuit-breaker.ts), credential
resolution for the Claude session file (claude.ts), and the orchestrator
(ProviderManager).  JavaScript numbers are modelled as rationals,
`undefined` as `Option.none`, thrown errors as `Except.error` over a
`JsError` carrying the optional axios response status.
-/

namespace UsageBar

/-- A thrown JavaScript error, with the optional `error.response.status`
read by the retry wrapper and the 401 checks. -/
structure JsError where
  message : String
  status : Option Nat
deriving Repr, DecidableEq

/-- Result of one invocation of a wrapped async operation. -/
inductive Outcome (α : Type) where
  | ok (v : α)
  | err (e : JsError)
deriving Repr, DecidableEq

/-- JavaScript try/catch over `Except`: the handler receives the thrown
error and its result replaces the failing computation. -/
def tryCatchE {α : Type} (body : Except JsError α) (handler : JsError → Except JsError α) :
    Except JsError α :=
  match body with
  | .ok v => .ok v
  | .error e => handler e

/-- Truthiness of an optional JS number: `undefined` and `0` are falsy. -/
def truthyNum (x : Option ℚ) : Bool :=
  match x with
  | none => false
  | some v => v != 0

/-- Truthiness of an optional JS string: `undefined` and the empty string
are falsy. -/
def truthyStr (x : Option String) : Bool :=
  match x with
  | none => false
  | some s => s != ""

/-- JS `a || b` for an optional number `a` and a number `b`. -/
def jsOr (a : Option ℚ) (b : ℚ) : ℚ :=
  match a with
  | none => b
  | some v => if v = 0 then b else v

/-- JS `a || b` for optional strings. -/
def jsOrStr (a b : Option String) : Option String :=
  match a with
  | none => b
  | some s => if s = "" then b else some s

/-! ## Usage normalization (factory.ts, zai.ts)

`factory.ts` computes
`usage.percent || (usage.limit ? (usage.used || 0) / usage.limit * 100 : 0)`
and `zai.ts` computes the same expression over
`quota.percent_used || (quota.limit ? (quota.used || 0) / quota.limit * 100 : 0)`;
the z.ai MCP secondary window uses only the pair part.  Neither clamps. -/

/-- The used/limit pair part: `limit ? (used || 0) / limit * 100 : 0`. -/
def pairPercent (used limit : Option ℚ) : ℚ :=
  match limit with
  | none => 0
  | some l => if l = 0 then 0 else jsOr used 0 / l * 100

/-- The full `percent || pair` expression shared verbatim by
`FactoryProvider.fetchUsage` and the z.ai quota window. -/
def percentOrPair (percent used limit : Option ℚ) : ℚ :=
  match percent with
  | none => pairPercent used limit
  | some p => if p = 0 then pairPercent used limit else p

/-- `usedPercent` of the Factory primary window (factory.ts line 114). -/
def factoryUsedPercent (percent used limit : Option ℚ) : ℚ :=
  percentOrPair percent used limit

/-- `usedPercent` of the z.ai quota (primary) window (zai.ts line 123). -/
def zaiQuotaPercent (percentUsed used limit : Option ℚ) : ℚ :=
  percentOrPair percentUsed used limit

/-- `usedPercent` of the z.ai MCP (secondary) window (zai.ts line 131). -/
def zaiMcpPercent (used limit : Option ℚ) : ℚ :=
  pairPercent used limit

/-! ## Claude usage parsing (claude.ts parseUsageResponse) -/

/-- The `{percent_remaining?, reset_at?}` shape of `session_usage` /
`weekly_usage` in the claude.ts response. -/
structure RemainingShape where
  percent_remaining : Option ℚ
  reset_at : Option String
deriving Repr, DecidableEq

/-- The `{percent_used?, reset_at?}` shape of `usage.session` /
`usage.weekly` in the claude.ts response. -/
structure PercentUsedShape where
  percent_used : Option ℚ
  reset_at : Option String
deriving Repr, DecidableEq

/-- The fields of the claude.ts usage response consumed by
`parseUsageResponse`. -/
structure ClaudeUsageResponse where
  session_usage : Option RemainingShape
  weekly_usage : Option RemainingShape
  usageSession : Option PercentUsedShape
  usageWeekly : Option PercentUsedShape
  organizationName : Option String
  userEmail : Option String
  plan : Option String
deriving Repr, DecidableEq

/-- Session percent: `100 - (session_usage.percent_remaining || 0)` when
`session_usage` is present, else `usage.session.percent_used || 0`,
else `0`. -/
def claudeSessionPercent (d : ClaudeUsageResponse) : ℚ :=
  match d.session_usage with
  | some su => 100 - jsOr su.percent_remaining 0
  | none =>
    match d.usageSession with
    | some us => jsOr us.percent_used 0
    | none => 0

/-- Weekly percent, `none` when neither weekly shape is present. -/
def claudeWeeklyPercent (d : ClaudeUsageResponse) : Option ℚ :=
  match d.weekly_usage with
  | some wu => some (100 - jsOr wu.percent_remaining 0)
  | none =>
    match d.usageWeekly with
    | some uw => some (jsOr uw.percent_used 0)
    | none => none

/-! ## Retry wrapper (retry.ts withRetry)

The operation is modelled as the stream `f : Nat → Outcome α` of results
its successive invocations would produce (`f k` is the result of the
k-th invocation, `k ≥ 1`).  The model returns the final result together
with the number of invocations performed. -/

/-- The rethrow-immediately test `status && !retryOn.includes(status)`:
a missing status and the falsy status `0` are both retried. -/
def nonRetryable (retryOn : List Nat) (status : Option Nat) : Bool :=
  match status with
  | none => false
  | some s => decide (s ≠ 0) && !(retryOn.contains s)

/-- The error thrown by `throw lastError` when the loop body never ran
(only reachable when `maxAttempts = 0`): `lastError` is `undefined`. -/
def undefinedThrown : JsError := { message := "undefined", status := none }

/-- The retry loop of `withRetry`, from attempt number `attempt`. -/
def withRetryGo {α : Type} (f : Nat → Outcome α) (retryOn : List Nat)
    (maxAttempts attempt : Nat) : Except JsError α × Nat :=
  if maxAttempts < attempt then
    (.error undefinedThrown, 0)
  else
    match f attempt with
    | .ok v => (.ok v, 1)
    | .err e =>
      if nonRetryable retryOn e.status then (.error e, 1)
      else if attempt = maxAttempts then (.error e, 1)
      else
        let r := withRetryGo f retryOn maxAttempts (attempt + 1)
        (r.1, r.2 + 1)
termination_by maxAttempts + 1 - attempt
decreasing_by omega

/-- `withRetry(fn, {maxAttempts, retryOn})` (retry.ts): result and number
of invocations of the wrapped operation.  Backoff delays are timing only
and do not affect the result. -/
def withRetry {α : Type} (f : Nat → Outcome α) (retryOn : List Nat)
    (maxAttempts : Nat) : Except JsError α × Nat :=
  withRetryGo f retryOn maxAttempts 1

/-! ## Circuit breaker (circuit-breaker.ts) -/

/-- The `CircuitState` enum. -/
inductive CircuitState where
  | CLOSED
  | OPEN
  | HALF_OPEN
deriving Repr, DecidableEq

/-- Constructor options after the `|| 5`, `|| 2`, `|| 30000` defaulting
(so in the real class all three are at least 1). -/
structure CBOptions where
  failureThreshold : Nat
  successThreshold : Nat
  timeout : Int
deriving Repr, DecidableEq

/-- Mutable fields of a `CircuitBreaker` instance; times are
milliseconds as in `Date.now()`. -/
structure CircuitBreaker where
  state : CircuitState
  failureCount : Nat
  successCount : Nat
  lastFailureTime : Int
deriving Repr, DecidableEq

/-- A freshly constructed breaker. -/
def CircuitBreaker.start : CircuitBreaker :=
  { state := .CLOSED, failureCount := 0, successCount := 0, lastFailureTime := 0 }

/-- `getState()`: lazily flips `OPEN` to `HALF_OPEN` once
`now - lastFailureTime > timeout`; returns the reported state and the
(possibly mutated) instance. -/
def getState (o : CBOptions) (cb : CircuitBreaker) (now : Int) :
    CircuitState × CircuitBreaker :=
  if cb.state = .OPEN ∧ o.timeout < now - cb.lastFailureTime then
    (.HALF_OPEN, { cb with state := .HALF_OPEN })
  else
    (cb.state, cb)

/-- `onSuccess()`. -/
def onSuccess (o : CBOptions) (cb : CircuitBreaker) : CircuitBreaker :=
  if cb.state = .HALF_OPEN then
    if o.successThreshold ≤ cb.successCount + 1 then
      { cb with state := .CLOSED, failureCount := 0, successCount := 0 }
    else
      { cb with successCount := cb.successCount + 1 }
  else
    { cb with failureCount := 0 }

/-- `onFailure()` at time `now`. -/
def onFailure (o : CBOptions) (cb : CircuitBreaker) (now : Int) : CircuitBreaker :=
  let cb1 := { cb with failureCount := cb.failureCount + 1, lastFailureTime := now }
  if o.failureThreshold ≤ cb1.failureCount then
    { cb1 with state := .OPEN }
  else
    cb1

/-- Observable result of one `execute()` call: rejected with the
circuit-open error (operation not invoked), or invoked with the given
outcome propagated. -/
inductive ExecResult where
  | rejectedOpen
  | succeeded
  | failed
deriving Repr, DecidableEq

/-- `execute(fn)` at time `now`; `outcome` is what `fn` would do were it
invoked (`true` = resolve, `false` = reject). -/
def execute (o : CBOptions) (cb : CircuitBreaker) (now : Int) (outcome : Bool) :
    ExecResult × CircuitBreaker :=
  let s := getState o cb now
  if s.1 = .OPEN then
    (.rejectedOpen, s.2)
  else if outcome then
    (.succeeded, onSuccess o s.2)
  else
    (.failed, onFailure o s.2 now)

/-- Run a sequence of `execute` calls, each given as (time, outcome). -/
def runCB (o : CBOptions) (cb : CircuitBreaker) : List (Int × Bool) → CircuitBreaker
  | [] => cb
  | (t, b) :: rest => runCB o (execute o cb t b).2 rest

/-- A failure-only event sequence at the given times. -/
def failSeq (ts : List Int) : List (Int × Bool) :=
  ts.map (fun t => (t, false))

/-- A success-only event sequence at the given times. -/
def succSeq (ts : List Int) : List (Int × Bool) :=
  ts.map (fun t => (t, true))

/-- Breaker states reachable from a fresh instance by `execute` calls. -/
inductive ReachCB (o : CBOptions) : CircuitBreaker → Prop where
  | start : ReachCB o CircuitBreaker.start
  | step (cb : CircuitBreaker) (t : Int) (b : Bool) :
      ReachCB o cb → ReachCB o (execute o cb t b).2

/-! ## Claude stored-session resolution (claude.ts getCookieHeader) -/

/-- One stored cookie; `expirationDate` is seconds since epoch. -/
structure StoredCookie where
  name : String
  value : String
  expirationDate : Option ℚ
deriving Repr, DecidableEq

/-- The persisted claude-session.json contents used by resolution. -/
structure StoredSession where
  cookies : List StoredCookie
deriving Repr, DecidableEq

/-- The filter predicate of `getCookieHeader`:
`if (!c.expirationDate) return true; return c.expirationDate > now;` —
a cookie with no `expirationDate`, or with the JS-falsy value `0`, is
kept; otherwise it must expire strictly after `now` (seconds). -/
def cookieValid (now : ℚ) (c : StoredCookie) : Bool :=
  match c.expirationDate with
  | none => true
  | some e => if e = 0 then true else decide (now < e)

/-- `getCookieHeader()` at time `now` (seconds): returns the header (or
`none`) and whether `clearStoredSession()` deleted the session file. -/
def getCookieHeader (stored : Option StoredSession) (now : ℚ) :
    Option String × Bool :=
  match stored with
  | none => (none, false)
  | some s =>
    if s.cookies.isEmpty then (none, false)
    else
      let valid := s.cookies.filter (cookieValid now)
      if valid.isEmpty then (none, true)
      else
        (some (String.intercalate "; " (valid.map (fun c => c.name ++ "=" ++ c.value))), false)

/-! ## Canonical records (providers/index.ts) -/

/-- `RateWindow`. -/
structure RateWindow where
  usedPercent : ℚ
  windowMinutes : Option ℚ := none
  resetsAt : Option String := none
  resetDescription : Option String := none
deriving Repr, DecidableEq

/-- `ProviderUsage` (the canonical ServiceUsage record). -/
structure ProviderUsage where
  providerId : String
  displayName : String
  primary : Option RateWindow := none
  secondary : Option RateWindow := none
  tertiary : Option RateWindow := none
  accountEmail : Option String := none
  accountPlan : Option String := none
  version : Option String := none
  error : Option String := none
  needsLogin : Option Bool := none
  updatedAt : String
  dashboardUrl : Option String := none
  statusPageUrl : Option String := none
deriving Repr, DecidableEq

/-! ## FactoryProvider (factory.ts)

`fetch()` reads credentials, throws when no token is present, delegates
to `fetchUsage`, and its catch block rethrows a fresh `Error` — so
`fetch()` can reject.  The filesystem read and the axios call are
modelled as `Except` parameters. -/

/-- The fields of Factory credentials.json used by the provider. -/
structure FactoryCredentials where
  accessToken : Option String
  workosToken : Option String
  email : Option String
deriving Repr, DecidableEq

/-- The `usage.current` shape of the Factory usage response. -/
structure FactoryUsageCurrent where
  used : Option ℚ
  limit : Option ℚ
  percent : Option ℚ
  reset_at : Option String
deriving Repr, DecidableEq

/-- The fields of the Factory usage response read by `fetchUsage`. -/
structure FactoryUsageResponse where
  current : Option FactoryUsageCurrent
  billingPeriodEnd : Option String
  billingPlan : Option String
  userEmail : Option String
deriving Repr, DecidableEq

/-- `axios.isAxiosError(error) && error.response?.status === 401`. -/
def isAxios401 (e : JsError) : Bool :=
  e.status = some 401

/-- `FactoryProvider.fetchUsage` (factory.ts lines 96-145):
`axiosRes` is the outcome of the axios GET. -/
def factoryFetchUsage (creds : FactoryCredentials)
    (axiosRes : Except JsError FactoryUsageResponse) (now : String) :
    Except JsError ProviderUsage :=
  match axiosRes with
  | .ok data =>
    let primary : Option RateWindow := data.current.map (fun usage =>
      { usedPercent := factoryUsedPercent usage.percent usage.used usage.limit,
        resetsAt := jsOrStr usage.reset_at data.billingPeriodEnd,
        resetDescription := some "Usage" })
    .ok { providerId := "factory", displayName := "Droid (Factory)",
          primary := primary,
          accountEmail := jsOrStr creds.email data.userEmail,
          accountPlan := data.billingPlan,
          version := some "api", updatedAt := now }
  | .error e =>
    if isAxios401 e then
      .ok { providerId := "factory", displayName := "Droid (Factory)",
            error := some "Factory session expired. Please login again.",
            updatedAt := now }
    else
      .error e

/-- `FactoryProvider.fetch` (factory.ts lines 43-57): `credsRes` is the
outcome of `readCredentials` (itself total, returning `none` when no
file parses). -/
def factoryFetch (credsRes : Except JsError (Option FactoryCredentials))
    (axiosRes : Except JsError FactoryUsageResponse) (now : String) :
    Except JsError ProviderUsage :=
  tryCatchE
    (match credsRes with
     | .error e => .error e
     | .ok c =>
       match c with
       | none =>
         .error { message := "Factory credentials not found. Login via Factory app.",
                  status := none }
       | some creds =>
         if !truthyStr creds.accessToken && !truthyStr creds.workosToken then
           .error { message := "Factory credentials not found. Login via Factory app.",
                    status := none }
         else
           factoryFetchUsage creds axiosRes now)
    (fun e => .error { message := e.message, status := none })

/-! ## ZaiProvider (zai.ts)

`fetch()` converts a missing token and every thrown error into a record
with `error` and `needsLogin` set, so it never rejects. -/

/-- One z.ai MCP window. -/
structure ZaiMcpWindow where
  name : Option String
  used : Option ℚ
  limit : Option ℚ
  reset_at : Option String
deriving Repr, DecidableEq

/-- The z.ai quota shape. -/
structure ZaiQuota where
  used : Option ℚ
  limit : Option ℚ
  percent_used : Option ℚ
  reset_at : Option String
deriving Repr, DecidableEq

/-- The fields of the z.ai usage response read by `fetchUsage`. -/
structure ZaiUsageResponse where
  quota : Option ZaiQuota
  mcpWindows : List ZaiMcpWindow
  userEmail : Option String
  userPlan : Option String
deriving Repr, DecidableEq

/-- The z.ai success record built from a parsed response. -/
def zaiOkRecord (data : ZaiUsageResponse) (now : String) : ProviderUsage :=
  { providerId := "zai", displayName := "z.ai",
    primary := data.quota.map (fun q =>
      { usedPercent := zaiQuotaPercent q.percent_used q.used q.limit,
        resetsAt := q.reset_at, resetDescription := some "Quota" }),
    secondary := data.mcpWindows.head?.map (fun w =>
      { usedPercent := zaiMcpPercent w.used w.limit,
        resetsAt := w.reset_at,
        resetDescription := jsOrStr w.name (some "MCP") }),
    accountEmail := data.userEmail, accountPlan := data.userPlan,
    version := some "api", updatedAt := now }

/-- The z.ai record returned on a 401 response. -/
def zaiAuthRecord (now : String) : ProviderUsage :=
  { providerId := "zai", displayName := "z.ai",
    error := some "z.ai token invalid or expired.", updatedAt := now }

/-- The z.ai record returned when no token resolves. -/
def zaiNoTokenRecord (now : String) : ProviderUsage :=
  { providerId := "zai", displayName := "z.ai",
    error := some "Set ZAI_API_TOKEN or configure in settings",
    needsLogin := some true, updatedAt := now }

/-- The z.ai record synthesized by the catch block of `fetch`. -/
def zaiCatchRecord (e : JsError) (now : String) : ProviderUsage :=
  { providerId := "zai", displayName := "z.ai",
    error := some e.message, needsLogin := some true, updatedAt := now }

/-- `ZaiProvider.fetchUsage` (zai.ts lines 108-166). -/
def zaiFetchUsage (axiosRes : Except JsError ZaiUsageResponse) (now : String) :
    Except JsError ProviderUsage :=
  match axiosRes with
  | .ok data => .ok (zaiOkRecord data now)
  | .error e =>
    if isAxios401 e then .ok (zaiAuthRecord now)
    else .error e

/-- `ZaiProvider.fetch` (zai.ts lines 38-62): `tokenRes` is the outcome
of `getToken`. -/
def zaiFetch (tokenRes : Except JsError (Option String))
    (axiosRes : Except JsError ZaiUsageResponse) (now : String) :
    Except JsError ProviderUsage :=
  tryCatchE
    (match tokenRes with
     | .error e => .error e
     | .ok t =>
       if !truthyStr t then .ok (zaiNoTokenRecord now)
       else zaiFetchUsage axiosRes now)
    (fun e => .ok (zaiCatchRecord e now))

/-! ## ClaudeProvider (claude.ts) -/

/-- `parseUsageResponse` (claude.ts lines 428-480). -/
def parseUsageResponse (d : ClaudeUsageResponse) (source now : String) :
    ProviderUsage :=
  let sessionReset : Option String :=
    match d.session_usage with
    | some su => su.reset_at
    | none =>
      match d.usageSession with
      | some us => us.reset_at
      | none => none
  let weeklyReset : Option String :=
    match d.weekly_usage with
    | some wu => wu.reset_at
    | none =>
      match d.usageWeekly with
      | some uw => uw.reset_at
      | none => none
  { providerId := "claude", displayName := "Claude",
    primary := some { usedPercent := claudeSessionPercent d,
                      resetsAt := sessionReset, resetDescription := some "Session" },
    secondary := (claudeWeeklyPercent d).map (fun w =>
      { usedPercent := w, resetsAt := weeklyReset, resetDescription := some "Weekly" }),
    accountEmail := d.userEmail,
    accountPlan := jsOrStr d.plan (jsOrStr d.organizationName (some "Claude")),
    version := some source,
    dashboardUrl := some "https://console.anthropic.com/settings/usage",
    statusPageUrl := some "https://status.anthropic.com",
    updatedAt := now }

/-- `fetchFromClaudeAi` / `fetchFromConsole` (claude.ts): the axios call
uses `validateStatus < 500`, so a ≥500 response rejects and is caught;
401/403 and any non-200 status yield `null`. -/
def claudeFetchApi (axiosRes : Except JsError (Nat × ClaudeUsageResponse))
    (source now : String) : Option ProviderUsage :=
  match axiosRes with
  | .error _ => none
  | .ok (status, data) =>
    if status = 401 ∨ status = 403 then none
    else if status ≠ 200 then none
    else some (parseUsageResponse data source now)

/-- The Claude record for cookies present but no usage API available. -/
def claudeLoggedInRecord (now : String) : ProviderUsage :=
  { providerId := "claude", displayName := "Claude",
    error := some "Logged in. Usage API not available for your plan.",
    needsLogin := some false,
    dashboardUrl := some "https://claude.ai/settings", updatedAt := now }

/-- The Claude record for CLI detected but no browser session. -/
def claudeCliRecord (v : String) (now : String) : ProviderUsage :=
  { providerId := "claude", displayName := "Claude",
    error := some "Claude CLI detected. Paid plan (Claude Max/Pro) required to view usage.",
    needsLogin := some true, version := some v,
    dashboardUrl := some "https://console.anthropic.com/settings/usage",
    statusPageUrl := some "https://status.anthropic.com", updatedAt := now }

/-- The Claude record for no session and no CLI. -/
def claudeSignInRecord (now : String) : ProviderUsage :=
  { providerId := "claude", displayName := "Claude",
    error := some "Sign in with Claude Max/Pro to view usage",
    needsLogin := some true, updatedAt := now }

/-- The Claude record synthesized by the catch block of `fetch`. -/
def claudeCatchRecord (e : JsError) (now : String) : ProviderUsage :=
  { providerId := "claude", displayName := "Claude",
    error := some e.message, updatedAt := now }

/-- `ClaudeProvider.fetch` (claude.ts lines 79-150).  `stored`/`nowSec`
feed `getCookieHeader`; `claudeAiRes`/`consoleRes` are the two axios
outcomes; `cliVersion` is the (total) `detectCLIVersion` result. -/
def claudeFetch (stored : Option StoredSession) (nowSec : ℚ)
    (claudeAiRes consoleRes : Except JsError (Nat × ClaudeUsageResponse))
    (cliVersion : Option String) (now : String) : Except JsError ProviderUsage :=
  tryCatchE
    (match (getCookieHeader stored nowSec).1 with
     | some _ =>
       match claudeFetchApi claudeAiRes "claude.ai" now with
       | some r => .ok r
       | none =>
         match claudeFetchApi consoleRes "console" now with
         | some r => .ok r
         | none => .ok (claudeLoggedInRecord now)
     | none =>
       match cliVersion with
       | some v => .ok (claudeCliRecord v now)
       | none => .ok (claudeSignInRecord now))
    (fun e => .ok (claudeCatchRecord e now))

/-! ## Orchestrator (ProviderManager) -/

/-- One registered adapter as the orchestrator sees it in one cycle:
its display name and the outcome its `fetch()` settles to. -/
structure ProviderBeh where
  displayName : String
  fetchResult : Except JsError ProviderUsage

/-- Key lookup `record[k]` / `map.get(k)` on an association-list record. -/
def lookupId {α : Type} (k : String) : List (String × α) → Option α
  | [] => none
  | (k', v) :: rest => if k = k' then some v else lookupId k rest

/-- Assignment `record[k] = v` on an association-list record. -/
def setEntry {α : Type} : List (String × α) → String → α → List (String × α)
  | [], k, v => [(k, v)]
  | (k', v') :: rest, k, v =>
    if k' = k then (k, v) :: rest else (k', v') :: setEntry rest k v

/-- The record written into `latestUsage` for one provider: the fetched
usage, or the synthesized error record of the catch block. -/
def fetchResultRecord (providerId : String) (p : ProviderBeh) (now : String) :
    ProviderUsage :=
  match p.fetchResult with
  | .ok u => u
  | .error e =>
    { providerId := providerId, displayName := p.displayName,
      error := some e.message, updatedAt := now }

/-- The per-id body of `refreshAll`: an enabled id missing from the
registry is skipped (nothing written); otherwise the fetch result or
the synthesized error record is stored. -/
def refreshAllStep (registry : List (String × ProviderBeh)) (now : String)
    (cache : List (String × ProviderUsage)) (providerId : String) :
    List (String × ProviderUsage) :=
  match lookupId providerId registry with
  | none => cache
  | some p => setEntry cache providerId (fetchResultRecord providerId p now)

/-- `ProviderManager.refreshAll` as its effect on the cache.  Each task
writes only its own key, so the concurrent `Promise.all` fan-out has the
same final cache as this left fold over the enabled ids. -/
def refreshAll (registry : List (String × ProviderBeh)) (enabled : List String)
    (now : String) (cache : List (String × ProviderUsage)) :
    List (String × ProviderUsage) :=
  enabled.foldl (refreshAllStep registry now) cache

/-- `ProviderManager.refreshProvider`: result and new cache. -/
def refreshProvider (registry : List (String × ProviderBeh)) (providerId : String)
    (now : String) (cache : List (String × ProviderUsage)) :
    Option ProviderUsage × List (String × ProviderUsage) :=
  match lookupId providerId registry with
  | none => (none, cache)
  | some p =>
    let u := fetchResultRecord providerId p now
    (some u, setEntry cache providerId u)

/-! ## getLatestUsage and aliasing (ProviderManager.getLatestUsage)

To state what `return { ...this.latestUsage }` shares, the cache is
modelled at the reference level: the record maps ids to heap references
of `ProviderUsage` objects.  The spread copies the outer record only,
so the returned map holds the same references. -/

/-- The heap of `ProviderUsage` objects. -/
def Heap : Type := Nat → Option ProviderUsage

/-- A heap write: in-place mutation of the object at reference `r`. -/
def heapSet (h : Heap) (r : Nat) (u : ProviderUsage) : Heap :=
  fun r' => if r' = r then some u else h r'

/-- `getLatestUsage()`: the spread `{ ...m }` yields a record with the
same key/reference pairs. -/
def getLatestUsage (m : List (String × Nat)) : List (String × Nat) :=
  m

/-- The contents a map denotes under a heap. -/
def viewUsage (m : List (String × Nat)) (h : Heap) (k : String) :
    Option ProviderUsage :=
  (lookupId k m).bind h

/-- A cache write `this.latestUsage[k] = usage` binding a fresh object:
the record is allocated at reference `r` and the outer map updated. -/
def cacheWrite (m : List (String × Nat)) (h : Heap) (k : String) (r : Nat)
    (u : ProviderUsage) : List (String × Nat) × Heap :=
  (setEntry m k r, heapSet h r u)

/-! ## Concrete fixtures for witnesses -/

/-- Demo adapter behavior whose fetch succeeds. -/
def zaiBeh : ProviderBeh :=
  { displayName := "z.ai",
    fetchResult := .ok { providerId := "zai", displayName := "z.ai", updatedAt := "t1" } }

/-- Demo adapter behavior whose fetch rejects. -/
def claudeBeh : ProviderBeh :=
  { displayName := "Claude",
    fetchResult := .error { message := "boom", status := none } }

/-- A two-adapter demo registry. -/
def demoRegistry : List (String × ProviderBeh) :=
  [("zai", zaiBeh), ("claude", claudeBeh)]

/-- A sample cached record for the aliasing scenario. -/
def demoUsage : ProviderUsage :=
  { providerId := "zai", displayName := "z.ai", updatedAt := "t0" }

/-- The heap holding `demoUsage` at reference 0. -/
def demoHeap : Heap :=
  fun r => if r = 0 then some demoUsage else none

/-- Operation failing retryably (502) once, then succeeding. -/
def retryDemoOk : Nat → Outcome Nat :=
  fun i => if i ≤ 1 then .err { message := "bad gateway", status := some 502 } else .ok 7

/-- Operation failing non-retryably (403) on the first attempt. -/
def retryDemoAuth : Nat → Outcome Nat :=
  fun _ => .err { message := "forbidden", status := some 403 }

/-- Operation failing retryably (500) on every attempt. -/
def retryDemoDown : Nat → Outcome Nat :=
  fun _ => .err { message := "server error", status := some 500 }

/-! ## Helper lemmas -/

theorem lookup_setEntry {α : Type} (c : List (String × α)) (k k' : String) (v : α) :
    lookupId k' (setEntry c k v) = if k' = k then some v else lookupId k' c := by
  induction c with
  | nil =>
    by_cases h : k' = k <;> simp [setEntry, lookupId, h]
  | cons hd tl ih =>
    obtain ⟨k1, v1⟩ := hd
    by_cases h1 : k1 = k
    · subst h1
      by_cases h2 : k' = k1 <;> simp [setEntry, lookupId, h2]
    · by_cases h2 : k' = k1
      · have h3 : ¬ k' = k := by rw [h2]; exact h1
        simp [setEntry, lookupId, h1, h2, h3]
      · by_cases h3 : k' = k
        · subst h3
          simp [setEntry, lookupId, h1, h2, ih]
        · simp [setEntry, lookupId, h1, h2, h3, ih]

theorem pairPercent_bounds (used limit : Option ℚ)
    (h : ∀ l, limit = some l → l ≠ 0 → 0 ≤ jsOr used 0 ∧ jsOr used 0 ≤ l) :
    0 ≤ pairPercent used limit ∧ pairPercent used limit ≤ 100 := by
  match limit with
  | none => simp [pairPercent]
  | some l =>
    by_cases hl : l = 0
    · simp [pairPercent, hl]
    · obtain ⟨hu0, hul⟩ := h l rfl hl
      have hlpos : 0 < l := lt_of_le_of_ne (le_trans hu0 hul) (Ne.symm hl)
      have hq0 : 0 ≤ jsOr used 0 / l := div_nonneg hu0 (le_of_lt hlpos)
      have hq1 : jsOr used 0 / l ≤ 1 := (div_le_one hlpos).mpr hul
      constructor
      · simp only [pairPercent, if_neg hl]
        positivity
      · simp only [pairPercent, if_neg hl]
        calc jsOr used 0 / l * 100 ≤ 1 * 100 := by
              exact mul_le_mul_of_nonneg_right hq1 (by norm_num)
          _ = 100 := by norm_num

theorem percentOrPair_bounds (percent used limit : Option ℚ)
    (hp : ∀ p, percent = some p → 0 ≤ p ∧ p ≤ 100)
    (hpair : ∀ l, limit = some l → l ≠ 0 → 0 ≤ jsOr used 0 ∧ jsOr used 0 ≤ l) :
    0 ≤ percentOrPair percent used limit ∧ percentOrPair percent used limit ≤ 100 := by
  match percent with
  | none => simpa [percentOrPair] using pairPercent_bounds used limit hpair
  | some p =>
    by_cases hp0 : p = 0
    · simpa [percentOrPair, hp0] using pairPercent_bounds used limit hpair
    · simpa [percentOrPair, hp0] using hp p rfl

/-! ## C1 -/

/-- C1 counterexample: the Factory normalization passes a direct percent
through without clamping, so a raw payload with `percent = 150` yields
`usedPercent = 150`, outside `[0, 100]`. -/
theorem factory_percent_unclamped :
    ¬ (0 ≤ factoryUsedPercent (some 150) none none ∧
       factoryUsedPercent (some 150) none none ≤ 100) := by
  intro h
  have : (150 : ℚ) ≤ 100 := by
    simpa [factoryUsedPercent, percentOrPair] using h.2
  norm_num at this

/-- C1 (amended): the normalizations do not clamp; `usedPercent` lies in
`[0, 100]` exactly when the raw inputs are themselves in range — a direct
percent in `[0, 100]`, and a used/limit pair with `0 ≤ used ≤ limit`
(for Claude, a remaining/used percent in `[0, 100]`). -/
theorem normalizer_bounded (percent used limit : Option ℚ) (d : ClaudeUsageResponse)
    (hp : ∀ p, percent = some p → 0 ≤ p ∧ p ≤ 100)
    (hpair : ∀ l, limit = some l → l ≠ 0 → 0 ≤ jsOr used 0 ∧ jsOr used 0 ≤ l)
    (hses : ∀ su, d.session_usage = some su →
      0 ≤ jsOr su.percent_remaining 0 ∧ jsOr su.percent_remaining 0 ≤ 100)
    (hses2 : ∀ us, d.usageSession = some us →
      0 ≤ jsOr us.percent_used 0 ∧ jsOr us.percent_used 0 ≤ 100)
    (hwk : ∀ wu, d.weekly_usage = some wu →
      0 ≤ jsOr wu.percent_remaining 0 ∧ jsOr wu.percent_remaining 0 ≤ 100)
    (hwk2 : ∀ uw, d.usageWeekly = some uw →
      0 ≤ jsOr uw.percent_used 0 ∧ jsOr uw.percent_used 0 ≤ 100) :
    (0 ≤ factoryUsedPercent percent used limit ∧
       factoryUsedPercent percent used limit ≤ 100) ∧
    (0 ≤ zaiQuotaPercent percent used limit ∧
       zaiQuotaPercent percent used limit ≤ 100) ∧
    (0 ≤ zaiMcpPercent used limit ∧ zaiMcpPercent used limit ≤ 100) ∧
    (0 ≤ claudeSessionPercent d ∧ claudeSessionPercent d ≤ 100) ∧
    (∀ w, claudeWeeklyPercent d = some w → 0 ≤ w ∧ w ≤ 100) := by
  refine ⟨percentOrPair_bounds percent used limit hp hpair,
          percentOrPair_bounds percent used limit hp hpair,
          pairPercent_bounds used limit hpair, ?_, ?_⟩
  · rcases hsu : d.session_usage with _ | su
    · rcases hus : d.usageSession with _ | us
      · simp [claudeSessionPercent, hsu, hus]
      · simpa [claudeSessionPercent, hsu, hus] using hses2 us hus
    · obtain ⟨h1, h2⟩ := hses su hsu
      simp only [claudeSessionPercent, hsu]
      constructor <;> linarith
  · intro w hw
    rcases hwu : d.weekly_usage with _ | wu
    · rcases huw : d.usageWeekly with _ | uw
      · simp [claudeWeeklyPercent, hwu, huw] at hw
      · simp only [claudeWeeklyPercent, hwu, huw] at hw
        injection hw with hw
        rw [← hw]
        exact hwk2 uw huw
    · obtain ⟨h1, h2⟩ := hwk wu hwu
      simp only [claudeWeeklyPercent, hwu] at hw
      injection hw with hw
      constructor <;> linarith [hw]

/-- C1 witness: bounded raw inputs at concrete values. -/
theorem normalizer_bounded_witness :
    (0 ≤ factoryUsedPercent (some 42) (some 3) (some 4) ∧
       factoryUsedPercent (some 42) (some 3) (some 4) ≤ 100) ∧
    (0 ≤ zaiQuotaPercent (some 42) (some 3) (some 4) ∧
       zaiQuotaPercent (some 42) (some 3) (some 4) ≤ 100) ∧
    (0 ≤ zaiMcpPercent (some 3) (some 4) ∧ zaiMcpPercent (some 3) (some 4) ≤ 100) ∧
    (0 ≤ claudeSessionPercent
        { session_usage := some { percent_remaining := some 73, reset_at := none },
          weekly_usage := none, usageSession := none, usageWeekly := none,
          organizationName := none, userEmail := none, plan := none } ∧
     claudeSessionPercent
        { session_usage := some { percent_remaining := some 73, reset_at := none },
          weekly_usage := none, usageSession := none, usageWeekly := none,
          organizationName := none, userEmail := none, plan := none } ≤ 100) ∧
    (∀ w, claudeWeeklyPercent
        { session_usage := some { percent_remaining := some 73, reset_at := none },
          weekly_usage := none, usageSession := none, usageWeekly := none,
          organizationName := none, userEmail := none, plan := none } = some w →
      0 ≤ w ∧ w ≤ 100) := by
  refine normalizer_bounded (some 42) (some 3) (some 4)
    { session_usage := some { percent_remaining := some 73, reset_at := none },
      weekly_usage := none, usageSession := none, usageWeekly := none,
      organizationName := none, userEmail := none, plan := none }
    ?_ ?_ ?_ ?_ ?_ ?_
  · intro p hp
    injection hp with hp
    rw [← hp]
    norm_num
  · intro l hl hne
    injection hl with hl
    rw [← hl]
    norm_num [jsOr]
  · intro su hsu
    injection hsu with hsu
    rw [← hsu]
    norm_num [jsOr]
  · intro us hus
    exact absurd hus (by simp)
  · intro wu hwu
    exact absurd hwu (by simp)
  · intro uw huw
    exact absurd huw (by simp)

/-! ## C8 -/

/-- C8: in every used/limit pair normalization (Factory primary, z.ai
quota, z.ai MCP window), `limit = 0` yields `usedPercent = 0` with no
division error, and `limit > 0` yields `used / limit * 100`. -/
theorem pair_limit_contract (used : Option ℚ) (u l : ℚ) (hl : 0 < l) :
    factoryUsedPercent none used (some 0) = 0 ∧
    zaiQuotaPercent none used (some 0) = 0 ∧
    zaiMcpPercent used (some 0) = 0 ∧
    factoryUsedPercent none (some u) (some l) = u / l * 100 ∧
    zaiQuotaPercent none (some u) (some l) = u / l * 100 ∧
    zaiMcpPercent (some u) (some l) = u / l * 100 := by
  have hl0 : l ≠ 0 := ne_of_gt hl
  have hpair : pairPercent (some u) (some l) = u / l * 100 := by
    by_cases hu : u = 0
    · simp [pairPercent, jsOr, hl0, hu]
    · simp [pairPercent, jsOr, hl0, hu]
  refine ⟨by simp [factoryUsedPercent, percentOrPair, pairPercent],
          by simp [zaiQuotaPercent, percentOrPair, pairPercent],
          by simp [zaiMcpPercent, pairPercent], ?_, ?_, ?_⟩
  · simpa [factoryUsedPercent, percentOrPair] using hpair
  · simpa [zaiQuotaPercent, percentOrPair] using hpair
  · simpa [zaiMcpPercent] using hpair

/-- C8 witness: `used = 3`, `limit = 4` and `limit = 0` concretely. -/
theorem pair_limit_contract_witness :
    factoryUsedPercent none (some 3) (some 0) = 0 ∧
    zaiQuotaPercent none (some 3) (some 0) = 0 ∧
    zaiMcpPercent (some 3) (some 0) = 0 ∧
    factoryUsedPercent none (some 3) (some 4) = 3 / 4 * 100 ∧
    zaiQuotaPercent none (some 3) (some 4) = 3 / 4 * 100 ∧
    zaiMcpPercent (some 3) (some 4) = 3 / 4 * 100 :=
  pair_limit_contract (some 3) 3 4 (by norm_num)

/-! ## C6 -/

/-- C6: whenever the reported state is `OPEN` (the open timeout has not
yet elapsed since the last failure), `execute` rejects with the
circuit-open failure and the wrapped operation is never invoked,
whatever it would have done. -/
theorem execute_open_rejects (o : CBOptions) (cb : CircuitBreaker) (now : Int)
    (outcome : Bool) (h : (getState o cb now).1 = .OPEN) :
    execute o cb now outcome = (.rejectedOpen, (getState o cb now).2) := by
  simp [execute, h]

/-- C6 witness: a breaker opened at time 0 with `timeout = 30000`,
executed at time 10. -/
theorem execute_open_rejects_witness :
    execute { failureThreshold := 5, successThreshold := 2, timeout := 30000 }
        { state := .OPEN, failureCount := 5, successCount := 0, lastFailureTime := 0 }
        10 true
      = (.rejectedOpen,
         { state := .OPEN, failureCount := 5, successCount := 0, lastFailureTime := 0 }) := by
  have h := execute_open_rejects
    { failureThreshold := 5, successThreshold := 2, timeout := 30000 }
    { state := .OPEN, failureCount := 5, successCount := 0, lastFailureTime := 0 }
    10 true (by decide)
  simpa [getState] using h

/-! ## C7 -/

/-- C7 counterexample: a stored session whose only cookie carries
`expirationDate = 0` — the epoch, which lies in the past at resolution
time 100 — is NOT treated as absent: the JS truthiness check
`!c.expirationDate` keeps the cookie, the header is returned for the
fetch, and claude-session.json is not deleted. -/
theorem epoch_zero_cookie_kept :
    getCookieHeader
      (some { cookies := [{ name := "sessionKey", value := "abc",
                            expirationDate := some 0 }] }) 100
      = (some "sessionKey=abc", false) := by
  rfl

/-- C7 (amended): a stored Claude session every cookie of which carries
a truthy (nonzero) `expirationDate` in the past is treated as absent by
`getCookieHeader` (no header is returned, so no fetch uses it) and the
backing claude-session.json is deleted via `clearStoredSession`; a
cookie whose `expirationDate` is the JS-falsy `0` is instead kept as if
it never expired. -/
theorem expired_session_absent_and_deleted (s : StoredSession) (now : ℚ)
    (hne : s.cookies ≠ [])
    (hexp : ∀ c ∈ s.cookies, ∃ e, c.expirationDate = some e ∧ e ≠ 0 ∧ e ≤ now) :
    getCookieHeader (some s) now = (none, true) := by
  have hfilter : s.cookies.filter (cookieValid now) = [] := by
    rw [List.filter_eq_nil_iff]
    intro c hc
    obtain ⟨e, he, he0, hle⟩ := hexp c hc
    simp [cookieValid, he, he0, not_lt.mpr hle]
  have hempty : s.cookies.isEmpty = false := by
    cases h : s.cookies with
    | nil => exact absurd h hne
    | cons a l => simp
  simp [getCookieHeader, hempty, hfilter]

/-- C7 witness: a session holding one cookie that expired at time 50,
resolved at time 100. -/
theorem expired_session_absent_and_deleted_witness :
    getCookieHeader
      (some { cookies := [{ name := "sessionKey", value := "abc",
                            expirationDate := some 50 }] }) 100
      = (none, true) :=
  expired_session_absent_and_deleted
    { cookies := [{ name := "sessionKey", value := "abc", expirationDate := some 50 }] }
    100 (by simp)
    (by
      intro c hc
      simp only [List.mem_singleton] at hc
      exact ⟨50, by rw [hc], by norm_num, by norm_num⟩)

/-! ## C10 -/

/-- C10: `refreshProvider` on a service id absent from the adapter
registry returns `null` and leaves the usage cache exactly as it was. -/
theorem refreshProvider_unknown_id (registry : List (String × ProviderBeh))
    (providerId : String) (now : String) (cache : List (String × ProviderUsage))
    (h : lookupId providerId registry = none) :
    refreshProvider registry providerId now cache = (none, cache) := by
  simp [refreshProvider, h]

/-- C10 witness: a registry containing only "zai", refreshed for the
unknown id "ghost" over a one-entry cache. -/
theorem refreshProvider_unknown_id_witness :
    refreshProvider
      [("zai", { displayName := "z.ai",
                 fetchResult := .ok { providerId := "zai", displayName := "z.ai",
                                      updatedAt := "t0" } })]
      "ghost" "t1"
      [("claude", { providerId := "claude", displayName := "Claude", updatedAt := "t0" })]
      = (none,
         [("claude", { providerId := "claude", displayName := "Claude", updatedAt := "t0" })]) :=
  refreshProvider_unknown_id _ "ghost" "t1" _ (by simp [lookupId])

/-! ## C2 -/

/-- C2 counterexample: with an empty registry, an enabled id "ghost" and
an initially empty cache, `refreshAll` ends the cycle with no entry at
all for "ghost" — the enabled id is skipped, not synthesized into an
error record. -/
theorem refreshAll_skips_unregistered :
    lookupId "ghost" (refreshAll [] ["ghost"] "t0" []) = none := by
  simp [refreshAll, refreshAllStep, lookupId]

theorem refreshAll_lookup_registered (registry : List (String × ProviderBeh))
    (now : String) (providerId : String) (p : ProviderBeh)
    (hreg : lookupId providerId registry = some p) :
    ∀ (enabled : List String) (cache : List (String × ProviderUsage)),
      lookupId providerId (refreshAll registry enabled now cache) =
        if providerId ∈ enabled then some (fetchResultRecord providerId p now)
        else lookupId providerId cache := by
  intro enabled
  induction enabled with
  | nil => intro cache; simp [refreshAll]
  | cons e rest ih =>
    intro cache
    have hstep : refreshAll registry (e :: rest) now cache
        = refreshAll registry rest now (refreshAllStep registry now cache e) := rfl
    rw [hstep, ih]
    by_cases hmem : providerId ∈ rest
    · simp [hmem, List.mem_cons]
    · by_cases heq : providerId = e
      · subst heq
        simp only [refreshAllStep, hreg, List.mem_cons, hmem, or_false, if_neg hmem]
        simp [lookup_setEntry]
      · have hne : providerId ∉ e :: rest := by
          simp [List.mem_cons, heq, hmem]
        simp only [if_neg hmem, if_neg hne, refreshAllStep]
        cases lookupId e registry with
        | none => rfl
        | some q =>
          simp [lookup_setEntry, heq]

theorem refreshAll_lookup_unregistered (registry : List (String × ProviderBeh))
    (now : String) (providerId : String)
    (hreg : lookupId providerId registry = none) :
    (∀ (enabled : List String) (cache : List (String × ProviderUsage)),
       lookupId providerId (refreshAll registry enabled now cache) =
         lookupId providerId cache) ∧
    (∀ (p : ProviderBeh) (e : JsError), p.fetchResult = .error e →
       fetchResultRecord providerId p now =
         { providerId := providerId, displayName := p.displayName,
           error := some e.message, updatedAt := now }) := by
  constructor
  · intro enabled
    induction enabled with
    | nil => intro cache; simp [refreshAll]
    | cons e rest ih =>
      intro cache
      have hstep : refreshAll registry (e :: rest) now cache
          = refreshAll registry rest now (refreshAllStep registry now cache e) := rfl
      rw [hstep, ih]
      by_cases heq : providerId = e
      · subst heq
        simp [refreshAllStep, hreg]
      · simp only [refreshAllStep]
        cases lookupId e registry with
        | none => rfl
        | some q => simp [lookup_setEntry, heq]
  · intro p e he
    simp [fetchResultRecord, he]

/-- C2 (amended): the cache entry for an id after `refreshAll` is fully
characterized — an enabled id found in the registry gets exactly the
record of its own fetch (so no other service's outcome can influence
it, and a fetch that rejects is converted into a record carrying the
thrown message in `error`); any other id, including an enabled id
missing from the registry, keeps its previous cache entry (or stays
absent): the code does not synthesize an entry for unregistered
enabled ids. -/
theorem refreshAll_per_id (registry : List (String × ProviderBeh))
    (now : String) (providerId : String) :
    (∀ p, lookupId providerId registry = some p →
       ∀ (enabled : List String) (cache : List (String × ProviderUsage)),
         lookupId providerId (refreshAll registry enabled now cache) =
           if providerId ∈ enabled then some (fetchResultRecord providerId p now)
           else lookupId providerId cache) ∧
    (lookupId providerId registry = none →
       ∀ (enabled : List String) (cache : List (String × ProviderUsage)),
         lookupId providerId (refreshAll registry enabled now cache) =
           lookupId providerId cache) ∧
    (∀ (p : ProviderBeh) (e : JsError), p.fetchResult = .error e →
       fetchResultRecord providerId p now =
         { providerId := providerId, displayName := p.displayName,
           error := some e.message, updatedAt := now }) :=
  ⟨fun p hp => refreshAll_lookup_registered registry now providerId p hp,
   fun hn => (refreshAll_lookup_unregistered registry now providerId hn).1,
   fun p e he => by simp [fetchResultRecord, he]⟩

/-- C2 witness: enabled ids "zai" (fetch succeeds) and "claude" (fetch
throws); "zai" gets its own record, "claude" gets the synthesized
error record, and the unregistered "ghost" stays absent. -/
theorem refreshAll_lookup_witness :
    (lookupId "zai" (refreshAll demoRegistry ["zai", "claude"] "t1" [])
      = some { providerId := "zai", displayName := "z.ai", updatedAt := "t1" }) ∧
    (lookupId "claude" (refreshAll demoRegistry ["zai", "claude"] "t1" [])
      = some { providerId := "claude", displayName := "Claude",
               error := some "boom", updatedAt := "t1" }) ∧
    (lookupId "ghost" (refreshAll demoRegistry ["zai", "claude"] "t1" [])
      = none) := by
  refine ⟨?_, ?_, ?_⟩
  · rw [(refreshAll_per_id demoRegistry "t1" "zai").1 zaiBeh
      (by simp [demoRegistry, lookupId])]
    simp [fetchResultRecord, zaiBeh]
  · rw [(refreshAll_per_id demoRegistry "t1" "claude").1 claudeBeh
      (by simp [demoRegistry, lookupId])]
    simp [fetchResultRecord, claudeBeh]
  · rw [(refreshAll_per_id demoRegistry "t1" "ghost").2.1
      (by simp [demoRegistry, lookupId])]
    simp [lookupId]

/-! ## C9 -/

/-- C9 counterexample: `getLatestUsage` returns the same record
references as the cache (the spread copies only the outer map), so
mutating the record obtained from the snapshot — a heap write at the
shared reference 0 — changes what the cache denotes: the claimed full
independence fails. -/
theorem getLatestUsage_shares_references :
    lookupId "zai" (getLatestUsage [("zai", 0)]) = some 0 ∧
    viewUsage [("zai", 0)]
        (heapSet demoHeap 0 { demoUsage with error := some "mutated" }) "zai"
      ≠ viewUsage [("zai", 0)] demoHeap "zai" := by
  constructor
  · rfl
  · intro h
    have h1 : viewUsage [("zai", 0)]
        (heapSet demoHeap 0 { demoUsage with error := some "mutated" }) "zai"
        = some { demoUsage with error := some "mutated" } := rfl
    have h2 : viewUsage [("zai", 0)] demoHeap "zai" = some demoUsage := rfl
    rw [h1, h2] at h
    simp [demoUsage] at h

/-- C9 (amended): `getLatestUsage` is a shallow snapshot — the returned
map holds the same record references as the cache, and a later cache
write, which binds a fresh record object to an id, leaves everything
the snapshot denotes unchanged; only in-place mutation of a shared
record is visible on both sides. -/
theorem getLatestUsage_shallow_snapshot (m : List (String × Nat)) (h : Heap)
    (k : String) (r : Nat) (u : ProviderUsage)
    (hfresh : ∀ k', lookupId k' m ≠ some r) :
    getLatestUsage m = m ∧
    (∀ k', viewUsage (getLatestUsage m) (cacheWrite m h k r u).2 k'
       = viewUsage (getLatestUsage m) h k') := by
  refine ⟨rfl, ?_⟩
  intro k'
  unfold viewUsage getLatestUsage cacheWrite
  cases hl : lookupId k' m with
  | none => rfl
  | some r' =>
    have hne : r' ≠ r := by
      intro hr
      exact hfresh k' (hr ▸ hl)
    simp [heapSet, hne]

/-- C9 witness: a fresh write for "claude" at reference 1 leaves the
prior snapshot of a cache holding "zai" at reference 0 unchanged. -/
theorem getLatestUsage_shallow_snapshot_witness :
    getLatestUsage [("zai", 0)] = [("zai", 0)] ∧
    (∀ k', viewUsage (getLatestUsage [("zai", 0)])
        (cacheWrite [("zai", 0)] demoHeap "claude" 1
          { providerId := "claude", displayName := "Claude", updatedAt := "t1" }).2 k'
      = viewUsage (getLatestUsage [("zai", 0)]) demoHeap k') :=
  getLatestUsage_shallow_snapshot [("zai", 0)] demoHeap "claude" 1
    { providerId := "claude", displayName := "Claude", updatedAt := "t1" }
    (by
      intro k'
      simp only [lookupId]
      by_cases hk : k' = "zai" <;> simp [hk])

/-! ## C4 -/

theorem withRetryGo_spec {α : Type} (f : Nat → Outcome α) (retryOn : List Nat)
    (maxAttempts : Nat) :
    ∀ (n a k : Nat), k - a = n → 1 ≤ a → a ≤ k → k ≤ maxAttempts →
    (∀ i, a ≤ i → i < k → ∃ e, f i = .err e ∧ nonRetryable retryOn e.status = false) →
    ((∀ v, f k = .ok v → withRetryGo f retryOn maxAttempts a = (.ok v, k + 1 - a)) ∧
     (∀ e, f k = .err e → nonRetryable retryOn e.status = true →
        withRetryGo f retryOn maxAttempts a = (.error e, k + 1 - a)) ∧
     (∀ e, f k = .err e → k = maxAttempts →
        withRetryGo f retryOn maxAttempts a = (.error e, k + 1 - a))) := by
  intro n
  induction n with
  | zero =>
    intro a k h0 h1 h2 h3 hpre
    have hak : a = k := by omega
    subst hak
    have hlt : ¬ maxAttempts < a := by omega
    have hone : a + 1 - a = 1 := by omega
    refine ⟨?_, ?_, ?_⟩
    · intro v hv
      rw [withRetryGo, if_neg hlt, hv, hone]
    · intro e he hnr
      rw [withRetryGo, if_neg hlt, he, hone]
      simp [hnr]
    · intro e he hmax
      rw [withRetryGo, if_neg hlt, he, hone]
      by_cases hnr : nonRetryable retryOn e.status = true
      · simp [hnr]
      · simp [hnr, hmax]
  | succ n ih =>
    intro a k h0 h1 h2 h3 hpre
    have hak : a < k := by omega
    obtain ⟨e0, hf0, hnr0⟩ := hpre a (le_refl a) hak
    have hlt : ¬ maxAttempts < a := by omega
    have hne : ¬ a = maxAttempts := by omega
    have IH := ih (a + 1) k (by omega) (by omega) (by omega) h3
      (fun i hi1 hi2 => hpre i (by omega) hi2)
    have hcount : k + 1 - (a + 1) + 1 = k + 1 - a := by omega
    have hgo : withRetryGo f retryOn maxAttempts a =
        ((withRetryGo f retryOn maxAttempts (a + 1)).1,
         (withRetryGo f retryOn maxAttempts (a + 1)).2 + 1) := by
      rw [withRetryGo, if_neg hlt, hf0]
      simp [hnr0, hne]
    refine ⟨?_, ?_, ?_⟩
    · intro v hv
      rw [hgo, IH.1 v hv, ← hcount]
    · intro e he hnr
      rw [hgo, IH.2.1 e he hnr, ← hcount]
    · intro e he hmax
      rw [hgo, IH.2.2 e he hmax, ← hcount]

/-- C4: the `withRetry` contract.  With attempts `1..k-1` failing
retryably (status missing, `0`, or in `retryOn`): a non-retryable
failure at attempt `k` is rethrown immediately after exactly `k`
invocations; a success at attempt `k ≤ maxAttempts` returns its value
after exactly `k` invocations; and if attempt `maxAttempts` also fails,
the final failure is rethrown after exactly `maxAttempts` invocations. -/
theorem withRetry_contract {α : Type} (f : Nat → Outcome α) (retryOn : List Nat)
    (maxAttempts k : Nat) (hk1 : 1 ≤ k) (hk2 : k ≤ maxAttempts)
    (hpre : ∀ i, 1 ≤ i → i < k →
      ∃ e, f i = .err e ∧ nonRetryable retryOn e.status = false) :
    (∀ e, f k = .err e → nonRetryable retryOn e.status = true →
       withRetry f retryOn maxAttempts = (.error e, k)) ∧
    (∀ v, f k = .ok v → withRetry f retryOn maxAttempts = (.ok v, k)) ∧
    (∀ e, f k = .err e → k = maxAttempts →
       withRetry f retryOn maxAttempts = (.error e, maxAttempts)) := by
  have H := withRetryGo_spec f retryOn maxAttempts (k - 1) 1 k (by omega)
    (le_refl 1) hk1 hk2 hpre
  have hcount : k + 1 - 1 = k := by omega
  refine ⟨?_, ?_, ?_⟩
  · intro e he hnr
    have := H.2.1 e he hnr
    rw [hcount] at this
    exact this
  · intro v hv
    have := H.1 v hv
    rw [hcount] at this
    exact this
  · intro e he hmax
    have := H.2.2 e he hmax
    rw [hcount] at this
    subst hmax
    exact this

/-- C4 witness: the three contract branches at concrete operations with
`maxAttempts = 3` and the default `retryOn` list. -/
theorem withRetry_contract_witness :
    withRetry retryDemoAuth [429, 500, 502, 503, 504] 3
      = (.error { message := "forbidden", status := some 403 }, 1) ∧
    withRetry retryDemoOk [429, 500, 502, 503, 504] 3 = (.ok 7, 2) ∧
    withRetry retryDemoDown [429, 500, 502, 503, 504] 3
      = (.error { message := "server error", status := some 500 }, 3) := by
  refine ⟨?_, ?_, ?_⟩
  · exact (withRetry_contract retryDemoAuth [429, 500, 502, 503, 504] 3 1
      (le_refl 1) (by omega) (fun i hi1 hi2 => absurd (lt_of_le_of_lt hi1 hi2) (by omega))).1
      _ rfl (by decide)
  · exact (withRetry_contract retryDemoOk [429, 500, 502, 503, 504] 3 2
      (by omega) (by omega)
      (fun i hi1 hi2 => ⟨{ message := "bad gateway", status := some 502 },
        by
          have : i = 1 := by omega
          subst this
          exact ⟨rfl, by decide⟩⟩)).2.1 7 (by decide)
  · exact (withRetry_contract retryDemoDown [429, 500, 502, 503, 504] 3 3
      (by omega) (le_refl 3)
      (fun i hi1 hi2 => ⟨{ message := "server error", status := some 500 },
        rfl, by decide⟩)).2.2 _ rfl rfl

/-! ## C5 -/

theorem getState_closed (o : CBOptions) (cb : CircuitBreaker) (now : Int)
    (h : cb.state = .CLOSED) : getState o cb now = (.CLOSED, cb) := by
  simp [getState, h]

theorem getState_halfopen (o : CBOptions) (cb : CircuitBreaker) (now : Int)
    (h : cb.state = .HALF_OPEN) : getState o cb now = (.HALF_OPEN, cb) := by
  simp [getState, h]

theorem execute_closed_failure (o : CBOptions) (cb : CircuitBreaker) (now : Int)
    (h : cb.state = .CLOSED) :
    execute o cb now false = (.failed, onFailure o cb now) := by
  simp [execute, getState_closed o cb now h, h]

theorem execute_closed_success (o : CBOptions) (cb : CircuitBreaker) (now : Int)
    (h : cb.state = .CLOSED) :
    execute o cb now true = (.succeeded, { cb with failureCount := 0 }) := by
  simp [execute, getState_closed o cb now h, h, onSuccess]

theorem execute_halfopen_success (o : CBOptions) (cb : CircuitBreaker) (now : Int)
    (h : cb.state = .HALF_OPEN) :
    execute o cb now true = (.succeeded, onSuccess o cb) := by
  simp [execute, getState_halfopen o cb now h, h]

theorem execute_halfopen_failure (o : CBOptions) (cb : CircuitBreaker) (now : Int)
    (h : cb.state = .HALF_OPEN) :
    execute o cb now false = (.failed, onFailure o cb now) := by
  simp [execute, getState_halfopen o cb now h, h]

theorem runCB_fail_lt (o : CBOptions) :
    ∀ (ts : List Int) (cb : CircuitBreaker), cb.state = .CLOSED →
      cb.failureCount + ts.length < o.failureThreshold →
      (runCB o cb (failSeq ts)).state = .CLOSED ∧
      (runCB o cb (failSeq ts)).failureCount = cb.failureCount + ts.length := by
  intro ts
  induction ts with
  | nil =>
    intro cb h1 h2
    simp [runCB, failSeq, h1]
  | cons t rest ih =>
    intro cb h1 h2
    have hnotthr : ¬ o.failureThreshold ≤ cb.failureCount + 1 := by
      simp only [List.length_cons] at h2
      omega
    have hfail : onFailure o cb t =
        { cb with failureCount := cb.failureCount + 1, lastFailureTime := t } := by
      simp [onFailure, hnotthr]
    have hrun : runCB o cb (failSeq (t :: rest))
        = runCB o { cb with failureCount := cb.failureCount + 1, lastFailureTime := t }
            (failSeq rest) := by
      simp [failSeq, runCB, execute_closed_failure o cb t h1, hfail]
    rw [hrun]
    have h2' : cb.failureCount + 1 + rest.length < o.failureThreshold := by
      simp only [List.length_cons] at h2
      omega
    have hrec := ih { cb with failureCount := cb.failureCount + 1, lastFailureTime := t }
      h1 h2'
    refine ⟨hrec.1, ?_⟩
    have h3 : (runCB o { cb with failureCount := cb.failureCount + 1, lastFailureTime := t }
        (failSeq rest)).failureCount = cb.failureCount + 1 + rest.length := hrec.2
    simp only [List.length_cons]
    omega

theorem runCB_fail_eq (o : CBOptions) :
    ∀ (ts : List Int) (cb : CircuitBreaker), cb.state = .CLOSED → ts ≠ [] →
      cb.failureCount + ts.length = o.failureThreshold →
      (runCB o cb (failSeq ts)).state = .OPEN := by
  intro ts
  induction ts with
  | nil => intro cb _ hne _; exact absurd rfl hne
  | cons t rest ih =>
    intro cb h1 _ h2
    cases rest with
    | nil =>
      have hthr : o.failureThreshold ≤ cb.failureCount + 1 := by
        simp only [List.length_cons, List.length_nil] at h2
        omega
      simp [failSeq, runCB, execute_closed_failure o cb t h1, onFailure, hthr]
    | cons t2 rest2 =>
      have hnotthr : ¬ o.failureThreshold ≤ cb.failureCount + 1 := by
        simp only [List.length_cons] at h2
        omega
      have hfail : onFailure o cb t =
          { cb with failureCount := cb.failureCount + 1, lastFailureTime := t } := by
        simp [onFailure, hnotthr]
      have hrun : runCB o cb (failSeq (t :: t2 :: rest2))
          = runCB o { cb with failureCount := cb.failureCount + 1, lastFailureTime := t }
              (failSeq (t2 :: rest2)) := by
        simp [failSeq, runCB, execute_closed_failure o cb t h1, hfail]
      rw [hrun]
      have h2' : cb.failureCount + 1 + (t2 :: rest2).length = o.failureThreshold := by
        simp only [List.length_cons] at h2 ⊢
        omega
      exact ih { cb with failureCount := cb.failureCount + 1, lastFailureTime := t }
        h1 (by simp) h2'

theorem runCB_succ_close (o : CBOptions) :
    ∀ (ts : List Int) (cb : CircuitBreaker), cb.state = .HALF_OPEN → ts ≠ [] →
      cb.successCount + ts.length = o.successThreshold →
      (runCB o cb (succSeq ts)).state = .CLOSED ∧
      (runCB o cb (succSeq ts)).failureCount = 0 ∧
      (runCB o cb (succSeq ts)).successCount = 0 := by
  intro ts
  induction ts with
  | nil => intro cb _ hne _; exact absurd rfl hne
  | cons t rest ih =>
    intro cb h1 _ h2
    cases rest with
    | nil =>
      have hthr : o.successThreshold ≤ cb.successCount + 1 := by
        simp only [List.length_cons, List.length_nil] at h2
        omega
      simp [succSeq, runCB, execute_halfopen_success o cb t h1, onSuccess, h1, hthr]
    | cons t2 rest2 =>
      have hnotthr : ¬ o.successThreshold ≤ cb.successCount + 1 := by
        simp only [List.length_cons] at h2
        omega
      have hsucc : onSuccess o cb = { cb with successCount := cb.successCount + 1 } := by
        simp [onSuccess, h1, hnotthr]
      have hrun : runCB o cb (succSeq (t :: t2 :: rest2))
          = runCB o { cb with successCount := cb.successCount + 1 }
              (succSeq (t2 :: rest2)) := by
        simp [succSeq, runCB, execute_halfopen_success o cb t h1, hsucc]
      rw [hrun]
      have h2' : cb.successCount + 1 + (t2 :: rest2).length = o.successThreshold := by
        simp only [List.length_cons] at h2 ⊢
        omega
      exact ih { cb with successCount := cb.successCount + 1 }
        h1 (by simp) h2'

theorem execute_fcount_inv (o : CBOptions) (cb : CircuitBreaker) (t : Int) (b : Bool)
    (ih : cb.state = .OPEN ∨ cb.state = .HALF_OPEN →
      o.failureThreshold ≤ cb.failureCount) :
    (execute o cb t b).2.state = .OPEN ∨ (execute o cb t b).2.state = .HALF_OPEN →
    o.failureThreshold ≤ (execute o cb t b).2.failureCount := by
  cases hs : cb.state with
  | CLOSED =>
    cases b with
    | true =>
      rw [execute_closed_success o cb t hs]
      intro hc
      rcases hc with hc | hc <;> simp [hs] at hc
    | false =>
      rw [execute_closed_failure o cb t hs]
      intro hc
      by_cases hthr : o.failureThreshold ≤ cb.failureCount + 1
      · simp [onFailure, hthr]
      · simp only [onFailure, if_neg hthr] at hc
        rcases hc with hc | hc <;> simp [hs] at hc
  | OPEN =>
    have hfc : o.failureThreshold ≤ cb.failureCount := ih (Or.inl hs)
    by_cases helapsed : o.timeout < t - cb.lastFailureTime
    · have hgs : getState o cb t = (.HALF_OPEN, { cb with state := .HALF_OPEN }) := by
        simp [getState, hs, helapsed]
      cases b with
      | true =>
        intro hc
        simp only [execute, hgs] at hc ⊢
        by_cases hsucc : o.successThreshold ≤ cb.successCount + 1
        · simp only [onSuccess, if_pos rfl, if_pos hsucc] at hc
          rcases hc with hc | hc <;> simp at hc
        · simp [onSuccess, hsucc]
          exact hfc
      | false =>
        intro hc
        simp only [execute, hgs]
        by_cases hthr : o.failureThreshold ≤ cb.failureCount + 1
        · simp [onFailure, hthr]
        · simp [onFailure, hthr]
          omega
    · have hgs : getState o cb t = (.OPEN, cb) := by
        simp [getState, hs, helapsed]
      intro hc
      simp only [execute, hgs]
      exact hfc
  | HALF_OPEN =>
    have hfc : o.failureThreshold ≤ cb.failureCount := ih (Or.inr hs)
    cases b with
    | true =>
      rw [execute_halfopen_success o cb t hs]
      intro hc
      by_cases hsucc : o.successThreshold ≤ cb.successCount + 1
      · simp only [onSuccess, if_pos hs, if_pos hsucc] at hc
        rcases hc with hc | hc <;> simp at hc
      · simp [onSuccess, hs, hsucc]
        exact hfc
    | false =>
      rw [execute_halfopen_failure o cb t hs]
      intro hc
      by_cases hthr : o.failureThreshold ≤ cb.failureCount + 1
      · simp [onFailure, hthr]
      · simp [onFailure, hthr]
        omega

theorem reachCB_fcount (o : CBOptions) (cb : CircuitBreaker) (h : ReachCB o cb) :
    cb.state = .OPEN ∨ cb.state = .HALF_OPEN →
    o.failureThreshold ≤ cb.failureCount := by
  induction h with
  | start =>
    intro hc
    rcases hc with hc | hc <;> simp [CircuitBreaker.start] at hc
  | step cb t b hr ih => exact execute_fcount_inv o cb t b ih

/-- C5: the circuit-breaker state machine.  From a fresh breaker, fewer
than `failureThreshold` consecutive failures leave it `CLOSED` (counting
them), while exactly `failureThreshold` consecutive failures open it; a
success while `CLOSED` resets the failure count to zero; an internally
`OPEN` breaker is reported `HALF_OPEN` iff strictly more than `timeout`
has elapsed since the last failure; `successThreshold` consecutive
successes from a `HALF_OPEN` breaker with a zeroed success counter close
it with both counters zeroed; and on any reachable breaker reported
`HALF_OPEN`, a failure reopens it. -/
theorem circuitBreaker_spec (o : CBOptions) (hthr : 1 ≤ o.failureThreshold) :
    (∀ ts : List Int, ts.length < o.failureThreshold →
       (runCB o CircuitBreaker.start (failSeq ts)).state = .CLOSED ∧
       (runCB o CircuitBreaker.start (failSeq ts)).failureCount = ts.length) ∧
    (∀ ts : List Int, ts.length = o.failureThreshold →
       (runCB o CircuitBreaker.start (failSeq ts)).state = .OPEN) ∧
    (∀ (cb : CircuitBreaker) (now : Int), cb.state = .CLOSED →
       (execute o cb now true).2.failureCount = 0 ∧
       (execute o cb now true).2.state = .CLOSED) ∧
    (∀ (cb : CircuitBreaker) (now : Int), cb.state = .OPEN →
       ((getState o cb now).1 = .HALF_OPEN ↔ o.timeout < now - cb.lastFailureTime)) ∧
    (∀ (cb : CircuitBreaker) (ts : List Int), cb.state = .HALF_OPEN →
       cb.successCount = 0 → ts.length = o.successThreshold → 1 ≤ o.successThreshold →
       (runCB o cb (succSeq ts)).state = .CLOSED ∧
       (runCB o cb (succSeq ts)).failureCount = 0 ∧
       (runCB o cb (succSeq ts)).successCount = 0) ∧
    (∀ (cb : CircuitBreaker) (now : Int), ReachCB o cb →
       (getState o cb now).1 = .HALF_OPEN →
       (execute o cb now false).2.state = .OPEN) := by
  refine ⟨?_, ?_, ?_, ?_, ?_, ?_⟩
  · intro ts hlen
    have h := runCB_fail_lt o ts CircuitBreaker.start rfl
      (by show 0 + ts.length < o.failureThreshold; omega)
    refine ⟨h.1, ?_⟩
    have h2 : (runCB o CircuitBreaker.start (failSeq ts)).failureCount
        = 0 + ts.length := h.2
    omega
  · intro ts hlen
    refine runCB_fail_eq o ts CircuitBreaker.start rfl ?_
      (by show 0 + ts.length = o.failureThreshold; omega)
    intro hnil
    rw [hnil] at hlen
    simp at hlen
    omega
  · intro cb now h
    rw [execute_closed_success o cb now h]
    exact ⟨rfl, h⟩
  · intro cb now h
    constructor
    · intro hh
      by_contra hel
      simp [getState, h, hel] at hh
    · intro hel
      simp [getState, h, hel]
  · intro cb ts h1 h2 h3 h4
    refine runCB_succ_close o ts cb h1 ?_ (by omega)
    intro hnil
    rw [hnil] at h3
    simp at h3
    omega
  · intro cb now hreach hrep
    have hstate : cb.state = .OPEN ∨ cb.state = .HALF_OPEN := by
      by_contra hc
      push_neg at hc
      obtain ⟨hc1, hc2⟩ := hc
      cases hs : cb.state with
      | CLOSED => simp [getState, hs] at hrep
      | OPEN => exact hc1 hs
      | HALF_OPEN => exact hc2 hs
    have hfc : o.failureThreshold ≤ cb.failureCount := reachCB_fcount o cb hreach hstate
    rcases hstate with hs | hs
    · by_cases helapsed : o.timeout < now - cb.lastFailureTime
      · have hgs : getState o cb now = (.HALF_OPEN, { cb with state := .HALF_OPEN }) := by
          simp [getState, hs, helapsed]
        simp only [execute, hgs]
        have hthr2 : o.failureThreshold ≤ cb.failureCount + 1 := by omega
        simp [onFailure, hthr2]
      · simp [getState, hs, helapsed] at hrep
    · rw [execute_halfopen_failure o cb now hs]
      have hthr2 : o.failureThreshold ≤ cb.failureCount + 1 := by omega
      simp [onFailure, hthr2]

/-- C5 witness: thresholds 2/1 and timeout 10, exercised on concrete
event sequences (two failures open; one does not; a success while
closed resets; half-open reporting after 11ms; one success closes from
half-open; a failure while reported half-open reopens). -/
theorem circuitBreaker_spec_witness :
    ((runCB { failureThreshold := 2, successThreshold := 1, timeout := 10 }
        CircuitBreaker.start (failSeq [0])).state = .CLOSED ∧
     (runCB { failureThreshold := 2, successThreshold := 1, timeout := 10 }
        CircuitBreaker.start (failSeq [0])).failureCount = 1) ∧
    (runCB { failureThreshold := 2, successThreshold := 1, timeout := 10 }
        CircuitBreaker.start (failSeq [0, 1])).state = .OPEN ∧
    ((execute { failureThreshold := 2, successThreshold := 1, timeout := 10 }
        { state := .CLOSED, failureCount := 1, successCount := 0, lastFailureTime := 0 }
        5 true).2.failureCount = 0 ∧
     (execute { failureThreshold := 2, successThreshold := 1, timeout := 10 }
        { state := .CLOSED, failureCount := 1, successCount := 0, lastFailureTime := 0 }
        5 true).2.state = .CLOSED) ∧
    ((getState { failureThreshold := 2, successThreshold := 1, timeout := 10 }
        { state := .OPEN, failureCount := 2, successCount := 0, lastFailureTime := 0 }
        11).1 = .HALF_OPEN ↔ (10 : Int) < 11 - 0) ∧
    ((runCB { failureThreshold := 2, successThreshold := 1, timeout := 10 }
        { state := .HALF_OPEN, failureCount := 2, successCount := 0, lastFailureTime := 0 }
        (succSeq [12])).state = .CLOSED ∧
     (runCB { failureThreshold := 2, successThreshold := 1, timeout := 10 }
        { state := .HALF_OPEN, failureCount := 2, successCount := 0, lastFailureTime := 0 }
        (succSeq [12])).failureCount = 0 ∧
     (runCB { failureThreshold := 2, successThreshold := 1, timeout := 10 }
        { state := .HALF_OPEN, failureCount := 2, successCount := 0, lastFailureTime := 0 }
        (succSeq [12])).successCount = 0) ∧
    (execute { failureThreshold := 2, successThreshold := 1, timeout := 10 }
        (runCB { failureThreshold := 2, successThreshold := 1, timeout := 10 }
          CircuitBreaker.start (failSeq [0, 1]))
        12 false).2.state = .OPEN := by
  have H := circuitBreaker_spec
    { failureThreshold := 2, successThreshold := 1, timeout := 10 } (by decide)
  refine ⟨H.1 [0] (by decide), H.2.1 [0, 1] (by decide),
          H.2.2.1 _ 5 rfl, H.2.2.2.1 _ 11 rfl,
          H.2.2.2.2.1 _ [12] rfl rfl (by decide) (by decide), ?_⟩
  have hreach : ReachCB { failureThreshold := 2, successThreshold := 1, timeout := 10 }
      (runCB { failureThreshold := 2, successThreshold := 1, timeout := 10 }
        CircuitBreaker.start (failSeq [0, 1])) := by
    have r1 := ReachCB.step (o := { failureThreshold := 2, successThreshold := 1, timeout := 10 })
      CircuitBreaker.start 0 false ReachCB.start
    have r2 := ReachCB.step (o := { failureThreshold := 2, successThreshold := 1, timeout := 10 })
      _ 1 false r1
    exact r2
  exact H.2.2.2.2.2 _ 12 hreach (by decide)

/-! ## C3 -/

/-- C3 counterexample: `FactoryProvider.fetch` with no stored
credentials rejects (its catch block rethrows a fresh `Error`), so not
every adapter's fetch resolves to a `ServiceUsage` record. -/
theorem factoryFetch_rejects :
    factoryFetch (.ok none) (.error { message := "network down", status := none }) "t0"
      = .error { message := "Factory credentials not found. Login via Factory app.",
                 status := none } := by
  rfl

/-- C3 (amended): `ZaiProvider.fetch` and `ClaudeProvider.fetch` are
total — every internal outcome resolves to a record, with `error`
populated whenever the token is missing or the usage call threw, and
`needsLogin = true` on the Claude no-session paths — but
`FactoryProvider.fetch` rejects on missing credentials, so the
never-rejects contract does not hold for every adapter. -/
theorem adapter_fetch_totality :
    (∀ (tokenRes : Except JsError (Option String))
       (axiosRes : Except JsError ZaiUsageResponse) (now : String),
       ∃ u, zaiFetch tokenRes axiosRes now = .ok u ∧
         (((∃ t, tokenRes = .ok t ∧ truthyStr t = false) ∨
           (∃ e, tokenRes = .error e) ∨ (∃ e, axiosRes = .error e)) →
           u.error.isSome = true)) ∧
    (∀ (stored : Option StoredSession) (nowSec : ℚ)
       (claudeAiRes consoleRes : Except JsError (Nat × ClaudeUsageResponse))
       (cliVersion : Option String) (now : String),
       ∃ u, claudeFetch stored nowSec claudeAiRes consoleRes cliVersion now = .ok u ∧
         ((getCookieHeader stored nowSec).1 = none →
           u.error.isSome = true ∧ u.needsLogin = some true)) := by
  constructor
  · intro tokenRes axiosRes now
    match tokenRes with
    | .error e =>
      exact ⟨zaiCatchRecord e now, rfl, fun _ => rfl⟩
    | .ok t =>
      cases ht : truthyStr t with
      | false =>
        refine ⟨zaiNoTokenRecord now, ?_, fun _ => rfl⟩
        simp [zaiFetch, tryCatchE, ht]
      | true =>
        match axiosRes with
        | .ok data =>
          refine ⟨zaiOkRecord data now, ?_, ?_⟩
          · simp [zaiFetch, tryCatchE, zaiFetchUsage, ht]
          · intro hc
            rcases hc with ⟨t2, h1, h2⟩ | ⟨e, h1⟩ | ⟨e, h1⟩
            · injection h1 with h1
              rw [h1] at ht
              rw [ht] at h2
              exact absurd h2 (by simp)
            · exact absurd h1 (by simp)
            · exact absurd h1 (by simp)
        | .error e =>
          cases h401 : isAxios401 e with
          | true =>
            refine ⟨zaiAuthRecord now, ?_, fun _ => rfl⟩
            simp [zaiFetch, tryCatchE, zaiFetchUsage, ht, h401]
          | false =>
            refine ⟨zaiCatchRecord e now, ?_, fun _ => rfl⟩
            simp [zaiFetch, tryCatchE, zaiFetchUsage, ht, h401]
  · intro stored nowSec claudeAiRes consoleRes cliVersion now
    cases hck : (getCookieHeader stored nowSec).1 with
    | some hdr =>
      cases h1 : claudeFetchApi claudeAiRes "claude.ai" now with
      | some r =>
        refine ⟨r, ?_, fun hc => Option.noConfusion hc⟩
        simp [claudeFetch, tryCatchE, hck, h1]
      | none =>
        cases h2 : claudeFetchApi consoleRes "console" now with
        | some r =>
          refine ⟨r, ?_, fun hc => Option.noConfusion hc⟩
          simp [claudeFetch, tryCatchE, hck, h1, h2]
        | none =>
          refine ⟨claudeLoggedInRecord now, ?_, fun hc => Option.noConfusion hc⟩
          simp [claudeFetch, tryCatchE, hck, h1, h2]
    | none =>
      cases cliVersion with
      | some v =>
        refine ⟨claudeCliRecord v now, ?_, fun _ => ⟨rfl, rfl⟩⟩
        simp [claudeFetch, tryCatchE, hck]
      | none =>
        refine ⟨claudeSignInRecord now, ?_, fun _ => ⟨rfl, rfl⟩⟩
        simp [claudeFetch, tryCatchE, hck]

/-- C3 witness: z.ai with no token resolves to a record with `error`
set; Claude with no stored session and no CLI resolves to the
sign-in record with `needsLogin = true`. -/
theorem adapter_fetch_totality_witness :
    (∃ u, zaiFetch (.ok none) (.error { message := "network down", status := none }) "t0"
        = .ok u ∧ u.error.isSome = true) ∧
    (∃ u, claudeFetch none 0 (.error { message := "network down", status := none })
        (.error { message := "network down", status := none }) none "t0"
        = .ok u ∧ u.error.isSome = true ∧ u.needsLogin = some true) := by
  constructor
  · obtain ⟨u, h1, h2⟩ := adapter_fetch_totality.1 (.ok none)
      (.error { message := "network down", status := none }) "t0"
    exact ⟨u, h1, h2 (Or.inl ⟨none, rfl, rfl⟩)⟩
  · obtain ⟨u, h1, h2⟩ := adapter_fetch_totality.2 none 0
      (.error { message := "network down", status := none })
      (.error { message := "network down", status := none }) none "t0"
    obtain ⟨h3, h4⟩ := h2 rfl
    exact ⟨u, h1, h3, h4⟩

end UsageBar
